import Mathlib

/-!
# Verification of the inventory-management core logic

A shallow embedding of the stock-level and purchase-order logic of the
supermarket inventory web application, together with proofs of the
behavioural properties stated in its specification.

Conventions:
* Monetary values (JS `number` used for prices) are modelled as `ℚ`;
  integer quantities (`parseInt`-produced values) as `ℤ`.
* TypeScript optional fields (`field?: T`) become `Option` fields.
* JS records of error messages keyed by field name are modelled as
  `List String` of field keys, built in source order; emptiness and key
  membership coincide with the JS object's behaviour.
* Code that lives only in the FastAPI backend (absent from the frontend
  sources) is modelled from the specification; such definitions carry a
  `Modelled from the spec:` comment.
-/

namespace Inventory

/-- Derived stock classification, from the `Product.stock_status` union type in
`productService` (`'OUT_OF_STOCK' | 'LOW_STOCK' | 'NORMAL' | 'OVERSTOCK'`). -/
inductive StockStatus where
  | OUT_OF_STOCK
  | LOW_STOCK
  | NORMAL
  | OVERSTOCK
deriving Repr, DecidableEq

/-- Modelled from the spec: `computeStockStatus` lives in the FastAPI backend,
which is not part of the frontend sources.  Spec §4.1: "pure function: if
quantity == 0 → OUT_OF_STOCK; else if quantity < min_threshold → LOW_STOCK;
else if max_threshold is set and quantity > max_threshold → OVERSTOCK;
else NORMAL". -/
def computeStockStatus (quantity : ℤ) (minThreshold : ℤ) (maxThreshold : Option ℤ) :
    StockStatus :=
  if quantity = 0 then .OUT_OF_STOCK
  else if quantity < minThreshold then .LOW_STOCK
  else
    match maxThreshold with
    | some m => if quantity > m then .OVERSTOCK else .NORMAL
    | none => .NORMAL

/-- The `Product` interface of `productService`. -/
structure Product where
  id : String
  name : String
  description : Option String
  sku : String
  barcode : Option String
  category : String
  subcategory : Option String
  brand : Option String
  cost_price : ℚ
  selling_price : ℚ
  quantity_in_stock : ℤ
  min_stock_threshold : ℤ
  max_stock_threshold : Option ℤ
  aisle : Option String
  shelf : Option String
  bin_location : Option String
  warehouse_id : Option String
  unit_of_measure : String
  weight : Option ℚ
  dimensions : Option String
  is_perishable : Bool
  expiry_date : Option String
  days_until_expiry_warning : ℤ
  supplier_id : Option String
  supplier_sku : Option String
  is_active : Bool
  created_at : String
  updated_at : String
  created_by : Option String
  stock_status : StockStatus
  is_low_stock : Bool
  is_out_of_stock : Bool
deriving Repr, DecidableEq

/-- First mock product of `getMockProducts` (inventory page). -/
def mockMilk : Product :=
  { id := "1", name := "Whole Milk 1L", description := none, sku := "MILK-001"
    barcode := none, category := "Dairy", subcategory := none, brand := none
    cost_price := 0.89, selling_price := 1.29
    quantity_in_stock := 45, min_stock_threshold := 20, max_stock_threshold := none
    aisle := some "A1", shelf := some "S3", bin_location := none, warehouse_id := none
    unit_of_measure := "liters", weight := none, dimensions := none
    is_perishable := true, expiry_date := some "2024-12-15"
    days_until_expiry_warning := 7, supplier_id := none, supplier_sku := none
    is_active := true, created_at := "2024-01-01T00:00:00Z"
    updated_at := "2024-01-01T00:00:00Z", created_by := none
    stock_status := .NORMAL, is_low_stock := false, is_out_of_stock := false }

/-- Second mock product of `getMockProducts`. -/
def mockBread : Product :=
  { id := "2", name := "Bread White Sliced", description := none, sku := "BREAD-001"
    barcode := none, category := "Bakery", subcategory := none, brand := none
    cost_price := 1.20, selling_price := 2.50
    quantity_in_stock := 8, min_stock_threshold := 15, max_stock_threshold := none
    aisle := some "B2", shelf := some "S1", bin_location := none, warehouse_id := none
    unit_of_measure := "pieces", weight := none, dimensions := none
    is_perishable := true, expiry_date := some "2024-11-20"
    days_until_expiry_warning := 3, supplier_id := none, supplier_sku := none
    is_active := true, created_at := "2024-01-01T00:00:00Z"
    updated_at := "2024-01-01T00:00:00Z", created_by := none
    stock_status := .LOW_STOCK, is_low_stock := true, is_out_of_stock := false }

/-- Third mock product of `getMockProducts`. -/
def mockBananas : Product :=
  { id := "3", name := "Bananas", description := none, sku := "FRUIT-001"
    barcode := none, category := "Produce", subcategory := none, brand := none
    cost_price := 0.45, selling_price := 0.99
    quantity_in_stock := 0, min_stock_threshold := 10, max_stock_threshold := none
    aisle := some "C1", shelf := some "S2", bin_location := none, warehouse_id := none
    unit_of_measure := "kg", weight := none, dimensions := none
    is_perishable := true, expiry_date := some "2024-11-18"
    days_until_expiry_warning := 2, supplier_id := none, supplier_sku := none
    is_active := true, created_at := "2024-01-01T00:00:00Z"
    updated_at := "2024-01-01T00:00:00Z", created_by := none
    stock_status := .OUT_OF_STOCK, is_low_stock := false, is_out_of_stock := true }

/-- `getMockProducts` from the inventory page: the fallback product list whose
`stock_status` values are written out literally in the source. -/
def getMockProducts : List Product := [mockMilk, mockBread, mockBananas]

/-- C1: the derived stock status is a pure function of
(quantity, min_threshold, max_threshold): 0 → OUT_OF_STOCK; < min → LOW_STOCK;
max set and quantity > max → OVERSTOCK; otherwise NORMAL (spec scenario for SKU
MILK-001 with min 20, max 200 at quantities 50/15/0/250), and every status the
code displays — including each literal one in the mock data — equals this
function of the product's current quantity. -/
theorem computeStockStatus_pure_and_consistent :
    (computeStockStatus 50 20 (some 200) = StockStatus.NORMAL
      ∧ computeStockStatus 15 20 (some 200) = StockStatus.LOW_STOCK
      ∧ computeStockStatus 0 20 (some 200) = StockStatus.OUT_OF_STOCK
      ∧ computeStockStatus 250 20 (some 200) = StockStatus.OVERSTOCK)
    ∧ ∀ p ∈ getMockProducts,
        p.stock_status
          = computeStockStatus p.quantity_in_stock p.min_stock_threshold
              p.max_stock_threshold := by
  refine ⟨⟨by decide, by decide, by decide, by decide⟩, ?_⟩
  decide

/-- Witness for C1 at the first mock product. -/
theorem computeStockStatus_pure_and_consistent_witness :
    mockMilk.stock_status
      = computeStockStatus mockMilk.quantity_in_stock mockMilk.min_stock_threshold
          mockMilk.max_stock_threshold :=
  computeStockStatus_pure_and_consistent.2 mockMilk (by
    simp [getMockProducts])

/-! ## Draft purchase-order building (`CreatePurchaseOrderModal`) -/

/-- A draft line item (the `OrderItem` interface of `CreatePurchaseOrderModal`). -/
structure OrderItem where
  id : String
  product_id : String
  product_name : String
  product_sku : String
  quantity_ordered : ℤ
  unit_price : ℚ
  supplier_sku : Option String
  total_price : ℚ
deriving Repr, DecidableEq

/-- The fresh line item `addProduct` builds when the product is not yet in the
order.  Its `id` is `Date.now().toString()` in the source — an environmental
input, passed in here as `freshId`.  Quantity starts at 1 and the unit price
starts at the product's cost price, so `total_price` is the cost price. -/
def newOrderItem (freshId : String) (p : Product) : OrderItem :=
  { id := freshId, product_id := p.id, product_name := p.name
    product_sku := p.sku, quantity_ordered := 1, unit_price := p.cost_price
    supplier_sku := none, total_price := p.cost_price }

/-- The update `addProduct` performs on an already-present item: quantity + 1
and `total_price` recomputed as `quantity_ordered * unit_price`. -/
def bumpExisting (it : OrderItem) : OrderItem :=
  { it with quantity_ordered := it.quantity_ordered + 1
            total_price := ((it.quantity_ordered + 1 : ℤ) : ℚ) * it.unit_price }

/-- `addProduct` of `CreatePurchaseOrderModal`: `findIndex` on `product_id`; if
found, bump that (first matching) item in place, otherwise append a fresh item.
The source's `findIndex`-then-update is rendered as structural recursion that
updates the first match and otherwise keeps the list unchanged. -/
def addProduct (orderItems : List OrderItem) (freshId : String) (p : Product) :
    List OrderItem :=
  match orderItems with
  | [] => [newOrderItem freshId p]
  | it :: rest =>
      if it.product_id = p.id then bumpExisting it :: rest
      else it :: addProduct rest freshId p

/-- The `field`/`value` pairs `updateOrderItem` is invoked with from the modal's
item inputs: quantity, unit price, and the supplier-SKU text field. -/
inductive OrderItemField where
  | quantity_ordered (v : ℤ)
  | unit_price (v : ℚ)
  | supplier_sku (v : String)
deriving Repr, DecidableEq

/-- One item's update inside `updateOrderItem`: the field is overwritten and —
exactly when the field is `quantity_ordered` or `unit_price` — `total_price` is
recomputed as `quantity_ordered * unit_price` of the updated item. -/
def applyOrderItemField (it : OrderItem) : OrderItemField → OrderItem
  | .quantity_ordered v =>
      { it with quantity_ordered := v, total_price := (v : ℚ) * it.unit_price }
  | .unit_price v =>
      { it with unit_price := v, total_price := (it.quantity_ordered : ℚ) * v }
  | .supplier_sku v => { it with supplier_sku := some v }

/-- `updateOrderItem`: map over the items, updating the one whose `id` matches. -/
def updateOrderItem (orderItems : List OrderItem) (itemId : String)
    (f : OrderItemField) : List OrderItem :=
  orderItems.map fun it => if it.id = itemId then applyOrderItemField it f else it

/-- `removeOrderItem`: keep the items whose `id` differs. -/
def removeOrderItem (orderItems : List OrderItem) (itemId : String) :
    List OrderItem :=
  orderItems.filter fun it => it.id != itemId

/-- The record returned by `calculateTotals`. -/
structure OrderTotals where
  subtotal : ℚ
  taxAmount : ℚ
  total : ℚ
deriving Repr, DecidableEq

/-- `calculateTotals` of `CreatePurchaseOrderModal`: subtotal is the `reduce`
of the items' `total_price` starting from 0; tax is `subtotal * 0.2` (20% VAT);
total is their sum.  Recomputed on every render from the current items. -/
def calculateTotals (orderItems : List OrderItem) : OrderTotals :=
  let subtotal := orderItems.foldl (fun sum it => sum + it.total_price) 0
  let taxAmount := subtotal * 0.2
  let total := subtotal + taxAmount
  { subtotal := subtotal, taxAmount := taxAmount, total := total }

/-- Sum of the line items' `total_price` (the spec's Σ line total_price). -/
def sumTotalPrice (items : List OrderItem) : ℚ := (items.map (·.total_price)).sum

/-- The item-level mutations available while building a draft order. -/
inductive OrderOp where
  | add (freshId : String) (p : Product)
  | update (itemId : String) (f : OrderItemField)
  | remove (itemId : String)

def applyOrderOp (s : List OrderItem) : OrderOp → List OrderItem
  | .add freshId p => addProduct s freshId p
  | .update itemId f => updateOrderItem s itemId f
  | .remove itemId => removeOrderItem s itemId

/-- Draft orders reachable from the empty item list by the modal's mutations. -/
def runOrderOps (ops : List OrderOp) : List OrderItem := ops.foldl applyOrderOp []

/-- The financial fields of a stored Purchase Order. -/
structure OrderFinancials where
  subtotal : ℚ
  tax_amount : ℚ
  shipping_cost : ℚ
  discount_amount : ℚ
  total_amount : ℚ
deriving Repr, DecidableEq

/-- Modelled from the spec: the Purchase Order Aggregate's recomputation of its
financial fields lives in the backend, which is not part of the frontend
sources.  Spec §3: `subtotal` = Σ(line total_price), `tax_amount` = 20% tax
rate × subtotal, `total_amount` = subtotal + tax + shipping − discount;
shipping and discount are entered directly. -/
def recomputeOrderTotals (items : List OrderItem) (shipping discount : ℚ) :
    OrderFinancials :=
  let subtotal := sumTotalPrice items
  let tax := 0.2 * subtotal
  { subtotal := subtotal, tax_amount := tax, shipping_cost := shipping
    discount_amount := discount
    total_amount := subtotal + tax + shipping - discount }

lemma foldl_totalPrice (items : List OrderItem) (a : ℚ) :
    items.foldl (fun sum it => sum + it.total_price) a = a + sumTotalPrice items := by
  induction items generalizing a with
  | nil => simp [sumTotalPrice]
  | cons it rest ih => simp [sumTotalPrice, ih, add_assoc]

lemma calculateTotals_subtotal (items : List OrderItem) :
    (calculateTotals items).subtotal = sumTotalPrice items := by
  simpa [calculateTotals] using foldl_totalPrice items 0

/-- C2: subtotal is the sum of the line items' `total_price`, tax is 20% of the
subtotal, and total = subtotal + tax + shipping − discount.  The draft modal
(where shipping and discount do not exist, i.e. are 0) recomputes these from
the current items after every addition, update or removal; the stored-order
recomputation (spec-modelled) has the same shape and agrees with the modal's
`calculateTotals` when shipping = discount = 0. -/
theorem purchaseOrder_totals_recomputed :
    (∀ items : List OrderItem,
        (calculateTotals items).subtotal = sumTotalPrice items
        ∧ (calculateTotals items).taxAmount = 0.2 * (calculateTotals items).subtotal
        ∧ (calculateTotals items).total
            = (calculateTotals items).subtotal + (calculateTotals items).taxAmount)
    ∧ (∀ (s : List OrderItem) (op : OrderOp),
        (calculateTotals (applyOrderOp s op)).subtotal
          = sumTotalPrice (applyOrderOp s op))
    ∧ (∀ (items : List OrderItem) (shipping discount : ℚ),
        (recomputeOrderTotals items shipping discount).total_amount
          = (recomputeOrderTotals items shipping discount).subtotal
            + (recomputeOrderTotals items shipping discount).tax_amount
            + shipping - discount
        ∧ (recomputeOrderTotals items 0 0).total_amount
            = (calculateTotals items).total) := by
  refine ⟨fun items => ⟨calculateTotals_subtotal items, by
      simp [calculateTotals, mul_comm], rfl⟩,
    fun s op => calculateTotals_subtotal _, fun items shipping discount => ⟨rfl, ?_⟩⟩
  have h := calculateTotals_subtotal items
  simp only [calculateTotals, recomputeOrderTotals] at *
  rw [← h]
  ring

/-- A line item satisfies the pricing invariant when its cached `total_price`
is the product of its quantity and unit price. -/
def ItemInv (it : OrderItem) : Prop :=
  it.total_price = (it.quantity_ordered : ℚ) * it.unit_price

lemma itemInv_newOrderItem (freshId : String) (p : Product) :
    ItemInv (newOrderItem freshId p) := by
  simp [ItemInv, newOrderItem]

lemma itemInv_bumpExisting (it : OrderItem) : ItemInv (bumpExisting it) := rfl

lemma itemInv_applyField (it : OrderItem) (f : OrderItemField) (h : ItemInv it) :
    ItemInv (applyOrderItemField it f) := by
  cases f with
  | quantity_ordered v => rfl
  | unit_price v => rfl
  | supplier_sku v => simpa [ItemInv, applyOrderItemField] using h

lemma addProduct_inv (items : List OrderItem) (freshId : String) (p : Product)
    (h : ∀ it ∈ items, ItemInv it) :
    ∀ it ∈ addProduct items freshId p, ItemInv it := by
  induction items with
  | nil =>
      intro it hit
      simp only [addProduct, List.mem_singleton] at hit
      exact hit ▸ itemInv_newOrderItem freshId p
  | cons a rest ih =>
      intro it hit
      simp only [addProduct] at hit
      split at hit
      · rcases List.mem_cons.mp hit with h1 | h1
        · exact h1 ▸ itemInv_bumpExisting a
        · exact h it (List.mem_cons_of_mem a h1)
      · rcases List.mem_cons.mp hit with h1 | h1
        · exact h1 ▸ h a (List.mem_cons_self a rest)
        · exact ih (fun x hx => h x (List.mem_cons_of_mem a hx)) it h1

lemma updateOrderItem_inv (items : List OrderItem) (itemId : String)
    (f : OrderItemField) (h : ∀ it ∈ items, ItemInv it) :
    ∀ it ∈ updateOrderItem items itemId f, ItemInv it := by
  intro it hit
  simp only [updateOrderItem, List.mem_map] at hit
  obtain ⟨a, ha, rfl⟩ := hit
  split
  · exact itemInv_applyField a f (h a ha)
  · exact h a ha

lemma removeOrderItem_inv (items : List OrderItem) (itemId : String)
    (h : ∀ it ∈ items, ItemInv it) :
    ∀ it ∈ removeOrderItem items itemId, ItemInv it :=
  fun it hit => h it (List.mem_of_mem_filter hit)

lemma runOrderOps_aux_inv (ops : List OrderOp) (s : List OrderItem)
    (h : ∀ it ∈ s, ItemInv it) :
    ∀ it ∈ ops.foldl applyOrderOp s, ItemInv it := by
  induction ops generalizing s with
  | nil => simpa using h
  | cons op rest ih =>
      refine ih (applyOrderOp s op) ?_
      cases op with
      | add freshId p => exact addProduct_inv s freshId p h
      | update itemId f => exact updateOrderItem_inv s itemId f h
      | remove itemId => exact removeOrderItem_inv s itemId h

/-- C5: every line item of every reachable draft order has
`total_price = quantity_ordered × unit_price`, and an update of the quantity or
the unit price recomputes `total_price` as the product of the new values. -/
theorem orderItem_total_price_product :
    (∀ ops : List OrderOp, ∀ it ∈ runOrderOps ops,
        it.total_price = (it.quantity_ordered : ℚ) * it.unit_price)
    ∧ (∀ (it : OrderItem) (v : ℤ),
        (applyOrderItemField it (.quantity_ordered v)).total_price
          = (v : ℚ) * (applyOrderItemField it (.quantity_ordered v)).unit_price)
    ∧ (∀ (it : OrderItem) (v : ℚ),
        (applyOrderItemField it (.unit_price v)).total_price
          = ((applyOrderItemField it (.unit_price v)).quantity_ordered : ℚ) * v) :=
  ⟨fun ops it hit => runOrderOps_aux_inv ops [] (by simp) it hit,
   fun _ _ => rfl, fun _ _ => rfl⟩

/-- Witness for C5: the order reached by adding the milk product once satisfies
the pricing invariant at its single item. -/
theorem orderItem_total_price_product_witness :
    (newOrderItem "1700000000000" mockMilk).total_price
      = ((newOrderItem "1700000000000" mockMilk).quantity_ordered : ℚ)
          * (newOrderItem "1700000000000" mockMilk).unit_price :=
  orderItem_total_price_product.1 [OrderOp.add "1700000000000" mockMilk]
    (newOrderItem "1700000000000" mockMilk)
    (by simp [runOrderOps, applyOrderOp, addProduct])

/-- The draft order's list of referenced product ids. -/
def orderProductIds (items : List OrderItem) : List String :=
  items.map (·.product_id)

lemma orderProductIds_cons (a : OrderItem) (rest : List OrderItem) :
    orderProductIds (a :: rest) = a.product_id :: orderProductIds rest := rfl

lemma orderProductIds_addProduct (items : List OrderItem) (freshId : String)
    (p : Product) :
    orderProductIds (addProduct items freshId p)
      = if p.id ∈ orderProductIds items then orderProductIds items
        else orderProductIds items ++ [p.id] := by
  induction items with
  | nil => simp [addProduct, orderProductIds, newOrderItem]
  | cons a rest ih =>
      by_cases h : a.product_id = p.id
      · have hmem : p.id ∈ orderProductIds (a :: rest) := by
          rw [orderProductIds_cons]
          exact List.mem_cons.mpr (Or.inl h.symm)
        simp only [addProduct, if_pos h, if_pos hmem]
        rw [orderProductIds_cons, orderProductIds_cons]
        rfl
      · have hne : ¬ p.id = a.product_id := fun hc => h hc.symm
        have hmemiff :
            p.id ∈ orderProductIds (a :: rest) ↔ p.id ∈ orderProductIds rest := by
          rw [orderProductIds_cons]
          simp [List.mem_cons, hne]
        simp only [addProduct, if_neg h]
        rw [orderProductIds_cons, ih]
        by_cases hm : p.id ∈ orderProductIds rest
        · rw [if_pos hm, if_pos (hmemiff.mpr hm), orderProductIds_cons]
        · rw [if_neg hm, if_neg (fun hc => hm (hmemiff.mp hc)),
            orderProductIds_cons, List.cons_append]

lemma orderProductIds_updateOrderItem (items : List OrderItem) (itemId : String)
    (f : OrderItemField) :
    orderProductIds (updateOrderItem items itemId f) = orderProductIds items := by
  simp only [orderProductIds, updateOrderItem, List.map_map]
  refine List.map_congr_left fun it _ => ?_
  by_cases h : it.id = itemId <;> cases f <;> simp [h, applyOrderItemField]

lemma orderProductIds_nodup_addProduct (items : List OrderItem) (freshId : String)
    (p : Product) (h : (orderProductIds items).Nodup) :
    (orderProductIds (addProduct items freshId p)).Nodup := by
  rw [orderProductIds_addProduct]
  split
  · exact h
  · rename_i hm
    simp [List.nodup_append, h, hm]

lemma orderProductIds_nodup_remove (items : List OrderItem) (itemId : String)
    (h : (orderProductIds items).Nodup) :
    (orderProductIds (removeOrderItem items itemId)).Nodup :=
  List.Nodup.sublist (List.Sublist.map _ (List.filter_sublist items)) h

lemma runOrderOps_aux_nodup (ops : List OrderOp) (s : List OrderItem)
    (h : (orderProductIds s).Nodup) :
    (orderProductIds (ops.foldl applyOrderOp s)).Nodup := by
  induction ops generalizing s with
  | nil => simpa using h
  | cons op rest ih =>
      refine ih (applyOrderOp s op) ?_
      cases op with
      | add freshId p => exact orderProductIds_nodup_addProduct s freshId p h
      | update itemId f => exact (orderProductIds_updateOrderItem s itemId f) ▸ h
      | remove itemId => exact orderProductIds_nodup_remove s itemId h

/-- C10: adding a product that is already among the draft items does not create
a second line item — the first item carrying that product id is bumped
(quantity + 1, total recomputed) and the list is otherwise unchanged — and
every reachable draft order has pairwise-distinct product ids. -/
theorem addProduct_merges_existing :
    (∀ ops : List OrderOp, (orderProductIds (runOrderOps ops)).Nodup)
    ∧ (∀ (pre post : List OrderItem) (it : OrderItem) (freshId : String)
        (p : Product), it.product_id = p.id → p.id ∉ orderProductIds pre →
        addProduct (pre ++ it :: post) freshId p = pre ++ bumpExisting it :: post) := by
  constructor
  · exact fun ops => runOrderOps_aux_nodup ops [] (by simp [orderProductIds])
  · intro pre post it freshId p hit hpre
    induction pre with
    | nil => simp [addProduct, hit]
    | cons a rest ih =>
        simp only [orderProductIds, List.map_cons, List.mem_cons, not_or] at hpre
        have hne : ¬ a.product_id = p.id := fun hc => hpre.1 hc.symm
        simp only [List.cons_append, addProduct, hne, if_neg hne]
        exact congrArg (a :: ·) (ih (by simpa [orderProductIds] using hpre.2))

/-- Witness for C10: re-adding the milk product to an order already containing
it bumps that item instead of appending a duplicate. -/
theorem addProduct_merges_existing_witness :
    addProduct [newOrderItem "1700000000000" mockMilk] "1700000000001" mockMilk
      = [bumpExisting (newOrderItem "1700000000000" mockMilk)] :=
  addProduct_merges_existing.2 [] [] (newOrderItem "1700000000000" mockMilk)
    "1700000000001" mockMilk rfl (by simp [orderProductIds])

/-! ## Stock adjustment log

`ProductService.adjustStock` in the frontend only issues
`PATCH /api/products/{id}/stock` with `{ new_quantity, reason, notes }`; the
handler lives in the FastAPI backend, which is not part of the frontend
sources, so the mutation is modelled from the specification. -/

/-- A Stock Adjustment Entry (spec §3): immutable once created; references the
old quantity, new quantity, reason code, optional notes and actor.  (The
timestamp is wall-clock data and is not modelled.) -/
structure StockAdjustmentEntry where
  oldQuantity : ℤ
  newQuantity : ℤ
  reason : String
  notes : Option String
  actor : String
deriving Repr, DecidableEq

/-- A product's stock quantity together with its append-only adjustment log. -/
structure ProductStock where
  quantity : ℤ
  log : List StockAdjustmentEntry
deriving Repr, DecidableEq

inductive AdjustStockError where
  | invalidQuantity
deriving Repr, DecidableEq

/-- Modelled from the spec: `adjustStock(id, newQuantity, reason, notes?)`
(backend, §4.1) computes delta = newQuantity − currentQuantity, writes one
Stock Adjustment Entry and updates `quantity_in_stock`; newQuantity must be
≥ 0, else it fails with `InvalidQuantityError` and changes nothing. -/
def adjustStock (s : ProductStock) (newQuantity : ℤ) (reason : String)
    (notes : Option String) (actor : String) :
    Except AdjustStockError ProductStock :=
  if newQuantity < 0 then .error .invalidQuantity
  else .ok { quantity := newQuantity
             log := s.log ++ [{ oldQuantity := s.quantity
                                newQuantity := newQuantity
                                reason := reason, notes := notes, actor := actor }] }

/-- One `adjustStock` call's arguments. -/
structure AdjustStockRequest where
  newQuantity : ℤ
  reason : String
  notes : Option String
  actor : String
deriving Repr, DecidableEq

/-- Apply a sequence of `adjustStock` calls; a failed call leaves the state
untouched (no entry is recorded and the quantity stays). -/
def runAdjustments (s : ProductStock) : List AdjustStockRequest → ProductStock
  | [] => s
  | r :: rs =>
      match adjustStock s r.newQuantity r.reason r.notes r.actor with
      | .ok s' => runAdjustments s' rs
      | .error _ => runAdjustments s rs

/-- Sum of the recorded deltas (new − old) of a log. -/
def sumDeltas (log : List StockAdjustmentEntry) : ℤ :=
  (log.map fun e => e.newQuantity - e.oldQuantity).sum

/-- Replaying a log from an initial quantity, entry by entry. -/
def replayLog (initial : ℤ) (log : List StockAdjustmentEntry) : ℤ :=
  log.foldl (fun q e => q + (e.newQuantity - e.oldQuantity)) initial

lemma sumDeltas_append (l1 l2 : List StockAdjustmentEntry) :
    sumDeltas (l1 ++ l2) = sumDeltas l1 + sumDeltas l2 := by
  simp [sumDeltas]

lemma replayLog_eq (initial : ℤ) (log : List StockAdjustmentEntry) :
    replayLog initial log = initial + sumDeltas log := by
  induction log generalizing initial with
  | nil => simp [replayLog, sumDeltas]
  | cons e rest ih =>
      have hstep : replayLog initial (e :: rest)
          = replayLog (initial + (e.newQuantity - e.oldQuantity)) rest := rfl
      rw [hstep, ih]
      simp only [sumDeltas, List.map_cons, List.sum_cons]
      ring

lemma runAdjustments_delta (rs : List AdjustStockRequest) :
    ∀ s : ProductStock,
      (runAdjustments s rs).quantity - sumDeltas (runAdjustments s rs).log
        = s.quantity - sumDeltas s.log := by
  induction rs with
  | nil => intro s; rfl
  | cons r rs ih =>
      intro s
      by_cases h : r.newQuantity < 0
      · simp only [runAdjustments, adjustStock, if_pos h]
        exact ih s
      · simp only [runAdjustments, adjustStock, if_neg h]
        rw [ih, sumDeltas_append]
        simp only [sumDeltas, List.map_cons, List.map_nil, List.sum_cons,
          List.sum_nil, add_zero]
        ring

/-- C3: after any finite sequence of `adjustStock` calls, the final
`quantity_in_stock` is the initial quantity plus the sum of the deltas of all
recorded Stock Adjustment Entries, and replaying the log from the initial
value reproduces the current quantity. -/
theorem adjustStock_replay_equivalence :
    ∀ (initial : ℤ) (rs : List AdjustStockRequest),
      (runAdjustments ⟨initial, []⟩ rs).quantity
          = initial + sumDeltas (runAdjustments ⟨initial, []⟩ rs).log
      ∧ replayLog initial (runAdjustments ⟨initial, []⟩ rs).log
          = (runAdjustments ⟨initial, []⟩ rs).quantity := by
  intro initial rs
  have h := runAdjustments_delta rs ⟨initial, []⟩
  simp only [sumDeltas, List.map_nil, List.sum_nil, sub_zero] at h
  refine ⟨?_, ?_⟩
  · simp only [sumDeltas]
    omega
  · rw [replayLog_eq]
    simp only [sumDeltas]
    omega

/-! ## Receiving against a purchase order

The frontend `PurchaseOrderService.receiveItems` only posts the batch to
`POST /api/purchase-orders/{id}/receive`; the Receiving Processor lives in the
backend, which is not part of the frontend sources, so it is modelled from the
specification (§4.3 receive row, §4.4). -/

/-- The purchase-order status union of `purchaseOrderService`. -/
inductive POStatus where
  | DRAFT
  | PENDING
  | APPROVED
  | ORDERED
  | SHIPPED
  | DELIVERED
  | CANCELLED
deriving Repr, DecidableEq

/-- A stored purchase-order line item (receipt-relevant fields). -/
structure POLineItem where
  id : String
  product_id : String
  quantity_ordered : ℤ
  quantity_received : ℤ
  is_received : Bool
deriving Repr, DecidableEq

/-- One element of the `items` array posted by
`PurchaseOrderService.receiveItems`. -/
structure ReceiveItemRequest where
  item_id : String
  quantity_received : ℤ
  quality_notes : Option String
deriving Repr, DecidableEq

/-- The state a receive call can touch: the order's status and line items plus
each referenced product's `quantity_in_stock` (keyed by product id).  The
RECEIVING adjustment-log entries that accompany the stock increments are not
modelled separately; on failure neither is written. -/
structure ReceivingOrder where
  status : POStatus
  items : List POLineItem
  stock : List (String × ℤ)
deriving Repr, DecidableEq

inductive ReceiveError where
  | invalidStateTransition
  | unknownItem
  | overReceipt
deriving Repr, DecidableEq

/-- Total quantity a batch submits against one line item. -/
def batchDelta (batch : List ReceiveItemRequest) (itemId : String) : ℤ :=
  ((batch.filter fun r => r.item_id = itemId).map fun r => r.quantity_received).sum

/-- A line item after a validated batch: `quantity_received` incremented and
`is_received` set when received = ordered; items the batch does not touch are
unchanged. -/
def receiveLineItem (batch : List ReceiveItemRequest) (it : POLineItem) :
    POLineItem :=
  let d := batchDelta batch it.id
  if d = 0 then it
  else { it with quantity_received := it.quantity_received + d
                 is_received := decide (it.quantity_received + d = it.quantity_ordered) }

/-- Total quantity a batch adds to one product's stock, across the order's
line items referencing that product. -/
def productReceiptDelta (items : List POLineItem)
    (batch : List ReceiveItemRequest) (pid : String) : ℤ :=
  ((items.filter fun it => it.product_id = pid).map
    fun it => batchDelta batch it.id).sum

/-- Modelled from the spec: the `receive(items)` transition (backend, §4.3–4.4).
Preconditions checked against current state before any mutation: status ∈
{ORDERED, SHIPPED} (else `InvalidStateTransitionError`), every received item
references a line item of this order, and no line item's cumulative
`quantity_received` would exceed its `quantity_ordered` (else `OverReceiptError`
and none of the batch is applied).  On success the line items and the product
stocks are updated together, and the order becomes DELIVERED when all items are
fully received. -/
def receiveItems (o : ReceivingOrder) (batch : List ReceiveItemRequest) :
    Except ReceiveError ReceivingOrder :=
  if ¬ (o.status = .ORDERED ∨ o.status = .SHIPPED) then
    .error .invalidStateTransition
  else if ¬ (∀ r ∈ batch, ∃ it ∈ o.items, it.id = r.item_id) then
    .error .unknownItem
  else if ¬ (∀ it ∈ o.items,
      it.quantity_received + batchDelta batch it.id ≤ it.quantity_ordered) then
    .error .overReceipt
  else
    let items' := o.items.map (receiveLineItem batch)
    let stock' := o.stock.map fun pq =>
      (pq.1, pq.2 + productReceiptDelta o.items batch pq.1)
    let status' :=
      if ∀ it ∈ items', it.quantity_received = it.quantity_ordered then
        POStatus.DELIVERED
      else o.status
    .ok { status := status', items := items', stock := stock' }

/-- The caller-visible state after a receive call: the new state on success,
the untouched old state on failure. -/
def applyReceive (o : ReceivingOrder) (batch : List ReceiveItemRequest) :
    ReceivingOrder :=
  match receiveItems o batch with
  | .ok o' => o'
  | .error _ => o

/-- C4: if a batch would push any line item's cumulative `quantity_received`
above its `quantity_ordered`, the receive call fails with `OverReceiptError`
and applies none of the batch: the line items and every product's stock are
exactly as before. -/
theorem receiveItems_over_receipt_all_or_nothing :
    ∀ (o : ReceivingOrder) (batch : List ReceiveItemRequest),
      (o.status = .ORDERED ∨ o.status = .SHIPPED) →
      (∀ r ∈ batch, ∃ it ∈ o.items, it.id = r.item_id) →
      (∃ it ∈ o.items,
        it.quantity_ordered < it.quantity_received + batchDelta batch it.id) →
      receiveItems o batch = .error .overReceipt
        ∧ applyReceive o batch = o := by
  intro o batch h1 h2 h3
  have hov : ¬ (∀ it ∈ o.items,
      it.quantity_received + batchDelta batch it.id ≤ it.quantity_ordered) := by
    obtain ⟨it, hit, hlt⟩ := h3
    exact fun hall => absurd (hall it hit) (by omega)
  have herr : receiveItems o batch = .error .overReceipt := by
    rw [receiveItems, if_neg (not_not_intro h1), if_neg (not_not_intro h2),
      if_pos hov]
  exact ⟨herr, by rw [applyReceive, herr]⟩

/-- The spec's receiving scenario: an order in ORDERED with one line item
ordered at 10, nothing received yet. -/
def exampleReceivingOrder : ReceivingOrder :=
  { status := .ORDERED
    items := [{ id := "li1", product_id := "1", quantity_ordered := 10
                quantity_received := 0, is_received := false }]
    stock := [("1", 45)] }

/-- A batch receiving 12 units against the line item ordered at 10. -/
def exampleOverReceiptBatch : List ReceiveItemRequest :=
  [{ item_id := "li1", quantity_received := 12, quality_notes := none }]

/-- Witness for C4: receiving 12 against a line ordered at 10 yields
`OverReceiptError` and leaves the order and stock untouched. -/
theorem receiveItems_over_receipt_all_or_nothing_witness :
    receiveItems exampleReceivingOrder exampleOverReceiptBatch
        = .error .overReceipt
      ∧ applyReceive exampleReceivingOrder exampleOverReceiptBatch
        = exampleReceivingOrder :=
  receiveItems_over_receipt_all_or_nothing exampleReceivingOrder
    exampleOverReceiptBatch (Or.inl rfl) (by decide) (by decide)

/-! ## Form validation

The three client-side validators: `validateForm` of `CreatePurchaseOrderModal`,
of `AddProductModal` and of `EditProductModal`.  Each builds a record of error
messages keyed by field name and submission proceeds only when that record is
empty; the record is modelled as the `List String` of violated field keys,
built in source order. -/

/-- The `AddProductModal` form state (`ProductFormData`). -/
structure AddProductFormData where
  name : String
  description : String
  sku : String
  barcode : String
  category : String
  subcategory : String
  brand : String
  cost_price : ℚ
  selling_price : ℚ
  quantity_in_stock : ℤ
  min_stock_threshold : ℤ
  max_stock_threshold : ℤ
  aisle : String
  shelf : String
  bin_location : String
  warehouse_id : String
  unit_of_measure : String
  weight : ℚ
  dimensions : String
  is_perishable : Bool
  expiry_date : String
  days_until_expiry_warning : ℤ
  supplier_id : String
  supplier_sku : String
deriving Repr, DecidableEq

/-- `s.trim() === ''` of JS: the string trims to empty exactly when every
character is whitespace.  (Stated this way because it evaluates; `String.trim`
agrees on every concrete string we use.) -/
def trimIsEmpty (s : String) : Bool := s.toList.all fun c => c.isWhitespace

/-- `validateForm` of `AddProductModal`: the keys of `newErrors`, in source
order.  The guard on the max-threshold check mirrors the JS truthiness test
`formData.max_stock_threshold && …` (0 is falsy); the perishable expiry check
mirrors `!expiry_date || expiry_date.trim() === ''`, which is equivalent to
the trimmed string being empty. -/
def addProductValidationErrors (f : AddProductFormData) : List String :=
  (if trimIsEmpty f.name then ["name"] else [])
  ++ (if trimIsEmpty f.sku then ["sku"] else [])
  ++ (if trimIsEmpty f.category then ["category"] else [])
  ++ (if f.cost_price ≤ 0 then ["cost_price"] else [])
  ++ (if f.selling_price ≤ 0 then ["selling_price"] else [])
  ++ (if f.quantity_in_stock < 0 then ["quantity_in_stock"] else [])
  ++ (if f.min_stock_threshold < 0 then ["min_stock_threshold"] else [])
  ++ (if f.max_stock_threshold ≠ 0
        ∧ f.max_stock_threshold ≤ f.min_stock_threshold
      then ["max_stock_threshold"] else [])
  ++ (if f.selling_price ≤ f.cost_price then ["selling_price"] else [])
  ++ (if f.is_perishable ∧ trimIsEmpty f.expiry_date then ["expiry_date"] else [])

/-- `validateForm` returns whether no error was recorded. -/
def addProductValidateForm (f : AddProductFormData) : Bool :=
  (addProductValidationErrors f).isEmpty

/-- `handleSubmit` of `AddProductModal`: returns early (no `onSave` call) when
`validateForm` fails; otherwise the form data is converted and saved.  The
caller-visible outcome is whether a create request is issued. -/
def addProductHandleSubmit (f : AddProductFormData) : Option AddProductFormData :=
  if addProductValidateForm f then some f else none

/-- The `EditProductModal` form state (`Partial<Product>` after the
pre-population `useEffect` runs, hence every field present). -/
structure EditProductFormData where
  name : String
  description : String
  sku : String
  barcode : String
  category : String
  subcategory : String
  brand : String
  cost_price : ℚ
  selling_price : ℚ
  min_stock_threshold : ℤ
  max_stock_threshold : ℤ
  aisle : String
  shelf : String
  bin_location : String
  warehouse_id : String
  unit_of_measure : String
  weight : ℚ
  dimensions : String
  is_perishable : Bool
  expiry_date : String
  days_until_expiry_warning : ℤ
  supplier_id : String
  supplier_sku : String
deriving Repr, DecidableEq

/-- `validateForm` of `EditProductModal`: the keys of `newErrors`, in source
order.  The `x || 0` fallbacks of the source are identities on the values
modelled here (`0 || 0 = 0`, `x || 0 = x` otherwise), and unlike the add form
the max-threshold check has no truthiness guard. -/
def editProductValidationErrors (f : EditProductFormData) : List String :=
  (if trimIsEmpty f.name then ["name"] else [])
  ++ (if trimIsEmpty f.sku then ["sku"] else [])
  ++ (if trimIsEmpty f.category then ["category"] else [])
  ++ (if f.cost_price ≤ 0 then ["cost_price"] else [])
  ++ (if f.selling_price ≤ 0 then ["selling_price"] else [])
  ++ (if f.min_stock_threshold < 0 then ["min_stock_threshold"] else [])
  ++ (if f.max_stock_threshold ≤ f.min_stock_threshold
      then ["max_stock_threshold"] else [])
  ++ (if f.selling_price ≤ f.cost_price then ["selling_price"] else [])
  ++ (if f.is_perishable ∧ f.expiry_date = "" then ["expiry_date"] else [])

def editProductValidateForm (f : EditProductFormData) : Bool :=
  (editProductValidationErrors f).isEmpty

/-- The `PUT /api/products/{id}` body built by the edit modal's `handleSubmit`
(`updatedData = { ...formData, … }`), restricted to the fields the claims
need; each is always present in the spread, in particular `sku`. -/
structure ProductUpdatePayload where
  sku : Option String
  name : Option String
  category : Option String
  cost_price : Option ℚ
  selling_price : Option ℚ
deriving Repr, DecidableEq

/-- The payload `handleSubmit` spreads from the current form state. -/
def editSubmitPayload (f : EditProductFormData) : ProductUpdatePayload :=
  { sku := some f.sku, name := some f.name, category := some f.category
    cost_price := some f.cost_price, selling_price := some f.selling_price }

/-- `handleSubmit` of `EditProductModal`: returns early when `validateForm`
fails; otherwise `onSave` is called with the spread payload. -/
def editProductHandleSubmit (f : EditProductFormData) : Option ProductUpdatePayload :=
  if editProductValidateForm f then some (editSubmitPayload f) else none

/-- The `CreatePurchaseOrderModal` form state relevant to validation. -/
structure CreatePurchaseOrderForm where
  selectedSupplierId : String
  expectedDeliveryDate : String
  orderItems : List OrderItem
deriving Repr, DecidableEq

/-- Error key for item `index`'s quantity: `item_${index}_quantity`. -/
def itemQuantityKey (i : ℕ) : String := "item_" ++ toString i ++ "_quantity"

/-- Error key for item `index`'s unit price: `item_${index}_price`. -/
def itemPriceKey (i : ℕ) : String := "item_" ++ toString i ++ "_price"

/-- `validateForm` of `CreatePurchaseOrderModal`: the keys of `newErrors`, in
source order — the supplier, item-list and delivery-date checks followed by
the `forEach` over the order items. -/
def createPOValidationErrors (f : CreatePurchaseOrderForm) : List String :=
  (if f.selectedSupplierId = "" then ["supplier"] else [])
  ++ (if f.orderItems.length = 0 then ["items"] else [])
  ++ (if f.expectedDeliveryDate = "" then ["deliveryDate"] else [])
  ++ (f.orderItems.enum.flatMap fun pr =>
      (if pr.2.quantity_ordered ≤ 0 then [itemQuantityKey pr.1] else [])
      ++ (if pr.2.unit_price ≤ 0 then [itemPriceKey pr.1] else []))

def createPOValidateForm (f : CreatePurchaseOrderForm) : Bool :=
  (createPOValidationErrors f).isEmpty

lemma ne_nil_of_mem {α : Type} {a : α} {l : List α} (h : a ∈ l) : l ≠ [] := by
  intro h0
  rw [h0] at h
  exact (List.not_mem_nil a) h

lemma isEmpty_false_of_ne_nil {α : Type} {l : List α} (h : l ≠ []) :
    l.isEmpty = false := by
  cases l with
  | nil => exact absurd rfl h
  | cons a t => rfl

/-- C6: each validator records every violated field at once — every violated
condition contributes its key to the error record irrespective of the others —
and any nonempty error record makes validation (and hence submission) fail. -/
theorem create_validation_reports_all_violations :
    (∀ f : CreatePurchaseOrderForm,
        (f.selectedSupplierId = "" → "supplier" ∈ createPOValidationErrors f)
        ∧ (f.orderItems = [] → "items" ∈ createPOValidationErrors f)
        ∧ (∀ pr ∈ f.orderItems.enum,
            (pr.2.quantity_ordered ≤ 0 →
              itemQuantityKey pr.1 ∈ createPOValidationErrors f)
            ∧ (pr.2.unit_price ≤ 0 →
              itemPriceKey pr.1 ∈ createPOValidationErrors f))
        ∧ (createPOValidationErrors f ≠ [] → createPOValidateForm f = false))
    ∧ (∀ g : AddProductFormData,
        (trimIsEmpty g.name = true → "name" ∈ addProductValidationErrors g)
        ∧ (trimIsEmpty g.sku = true → "sku" ∈ addProductValidationErrors g)
        ∧ (trimIsEmpty g.category = true →
            "category" ∈ addProductValidationErrors g)
        ∧ (g.cost_price ≤ 0 → "cost_price" ∈ addProductValidationErrors g)
        ∧ (g.selling_price ≤ 0 → "selling_price" ∈ addProductValidationErrors g)
        ∧ (g.quantity_in_stock < 0 →
            "quantity_in_stock" ∈ addProductValidationErrors g)
        ∧ (g.min_stock_threshold < 0 →
            "min_stock_threshold" ∈ addProductValidationErrors g)
        ∧ (g.max_stock_threshold ≠ 0 →
            g.max_stock_threshold ≤ g.min_stock_threshold →
            "max_stock_threshold" ∈ addProductValidationErrors g)
        ∧ (addProductValidationErrors g ≠ [] → addProductValidateForm g = false)) := by
  constructor
  · intro f
    refine ⟨fun h => ?_, fun h => ?_, fun pr hpr => ⟨fun h => ?_, fun h => ?_⟩,
      fun h => isEmpty_false_of_ne_nil h⟩
    · simp [createPOValidationErrors, h]
    · simp [createPOValidationErrors, h]
    · refine List.mem_append.mpr (Or.inr (List.mem_flatMap.mpr ⟨pr, hpr, ?_⟩))
      simp [h]
    · refine List.mem_append.mpr (Or.inr (List.mem_flatMap.mpr ⟨pr, hpr, ?_⟩))
      simp [h]
  · intro g
    refine ⟨fun h => ?_, fun h => ?_, fun h => ?_, fun h => ?_, fun h => ?_,
      fun h => ?_, fun h => ?_, fun h1 h2 => ?_,
      fun h => isEmpty_false_of_ne_nil h⟩
    all_goals simp_all [addProductValidationErrors]

/-- A purchase-order form violating the supplier requirement and both item
checks at once (one item, quantity 0, price 0). -/
def examplePOItem : OrderItem :=
  { id := "1", product_id := "p1", product_name := "n", product_sku := "s"
    quantity_ordered := 0, unit_price := 0, supplier_sku := none
    total_price := 0 }

def examplePOFormInvalid : CreatePurchaseOrderForm :=
  { selectedSupplierId := "", expectedDeliveryDate := ""
    orderItems := [examplePOItem] }

/-- A product create form violating every checked field at once. -/
def exampleAddFormInvalid : AddProductFormData :=
  { name := "", description := "", sku := "", barcode := "", category := ""
    subcategory := "", brand := "", cost_price := 0, selling_price := 0
    quantity_in_stock := -1, min_stock_threshold := -1
    max_stock_threshold := -2, aisle := "", shelf := "", bin_location := ""
    warehouse_id := "", unit_of_measure := "pieces", weight := 0
    dimensions := "", is_perishable := true, expiry_date := ""
    days_until_expiry_warning := 7, supplier_id := "", supplier_sku := "" }

/-- Witness for C6: on concretely invalid forms all the violated keys are
present together and validation fails. -/
theorem create_validation_reports_all_violations_witness :
    ("supplier" ∈ createPOValidationErrors examplePOFormInvalid
      ∧ itemQuantityKey 0 ∈ createPOValidationErrors examplePOFormInvalid
      ∧ itemPriceKey 0 ∈ createPOValidationErrors examplePOFormInvalid
      ∧ createPOValidateForm examplePOFormInvalid = false)
    ∧ ("name" ∈ addProductValidationErrors exampleAddFormInvalid
      ∧ "sku" ∈ addProductValidationErrors exampleAddFormInvalid
      ∧ "category" ∈ addProductValidationErrors exampleAddFormInvalid
      ∧ "cost_price" ∈ addProductValidationErrors exampleAddFormInvalid
      ∧ "selling_price" ∈ addProductValidationErrors exampleAddFormInvalid
      ∧ "quantity_in_stock" ∈ addProductValidationErrors exampleAddFormInvalid
      ∧ "min_stock_threshold" ∈ addProductValidationErrors exampleAddFormInvalid
      ∧ "max_stock_threshold" ∈ addProductValidationErrors exampleAddFormInvalid
      ∧ addProductValidateForm exampleAddFormInvalid = false) := by
  have hpo := create_validation_reports_all_violations.1 examplePOFormInvalid
  have hadd := create_validation_reports_all_violations.2 exampleAddFormInvalid
  have hpr : ((0 : ℕ), examplePOItem) ∈ examplePOFormInvalid.orderItems.enum :=
    List.mem_singleton.mpr rfl
  refine ⟨⟨hpo.1 rfl, (hpo.2.2.1 _ hpr).1 (by decide), (hpo.2.2.1 _ hpr).2 (by decide),
      hpo.2.2.2 (ne_nil_of_mem (hpo.1 rfl))⟩,
    hadd.1 rfl, hadd.2.1 rfl, hadd.2.2.1 rfl, hadd.2.2.2.1 (by decide),
    hadd.2.2.2.2.1 (by decide), hadd.2.2.2.2.2.1 (by decide),
    hadd.2.2.2.2.2.2.1 (by decide), hadd.2.2.2.2.2.2.2.1 (by decide) (by decide),
    hadd.2.2.2.2.2.2.2.2 (ne_nil_of_mem (hadd.1 rfl))⟩

lemma mem_of_selling_le_cost_add {g : AddProductFormData}
    (h : g.selling_price ≤ g.cost_price) :
    "selling_price" ∈ addProductValidationErrors g := by
  simp [addProductValidationErrors, h]

lemma mem_of_selling_le_cost_edit {f : EditProductFormData}
    (h : f.selling_price ≤ f.cost_price) :
    "selling_price" ∈ editProductValidationErrors f := by
  simp [editProductValidationErrors, h]

/-- C8 (amended): in both product forms, `selling_price ≤ cost_price` is
recorded in the blocking error map, so validation fails and the create/update
submission is not issued — it is a hard validation failure, not a pass-through
warning. -/
theorem sellingPrice_le_costPrice_blocks_submission :
    (∀ g : AddProductFormData, g.selling_price ≤ g.cost_price →
        "selling_price" ∈ addProductValidationErrors g
        ∧ addProductHandleSubmit g = none)
    ∧ (∀ f : EditProductFormData, f.selling_price ≤ f.cost_price →
        "selling_price" ∈ editProductValidationErrors f
        ∧ editProductHandleSubmit f = none) := by
  constructor
  · intro g h
    have hmem := mem_of_selling_le_cost_add h
    have hval : addProductValidateForm g = false :=
      isEmpty_false_of_ne_nil (ne_nil_of_mem hmem)
    exact ⟨hmem, by simp [addProductHandleSubmit, hval]⟩
  · intro f h
    have hmem := mem_of_selling_le_cost_edit h
    have hval : editProductValidateForm f = false :=
      isEmpty_false_of_ne_nil (ne_nil_of_mem hmem)
    exact ⟨hmem, by simp [editProductHandleSubmit, hval]⟩

/-- A create form whose only violation is selling price ≤ cost price. -/
def exampleAddFormSellingBelowCost : AddProductFormData :=
  { name := "Test Product", description := "", sku := "TEST-001", barcode := ""
    category := "Dairy", subcategory := "", brand := "", cost_price := 2
    selling_price := 1, quantity_in_stock := 10, min_stock_threshold := 5
    max_stock_threshold := 100, aisle := "", shelf := "", bin_location := ""
    warehouse_id := "", unit_of_measure := "pieces", weight := 0
    dimensions := "", is_perishable := false, expiry_date := ""
    days_until_expiry_warning := 7, supplier_id := "", supplier_sku := "" }

/-- An edit form whose only violation is selling price ≤ cost price. -/
def exampleEditFormSellingBelowCost : EditProductFormData :=
  { name := "Test Product", description := "", sku := "TEST-001", barcode := ""
    category := "Dairy", subcategory := "", brand := "", cost_price := 2
    selling_price := 1, min_stock_threshold := 5, max_stock_threshold := 100
    aisle := "", shelf := "", bin_location := "", warehouse_id := ""
    unit_of_measure := "pieces", weight := 0, dimensions := ""
    is_perishable := false, expiry_date := "", days_until_expiry_warning := 7
    supplier_id := "", supplier_sku := "" }

/-- Counterexample to C8 as stated: on forms whose only violated condition is
selling ≤ cost, that condition alone fills the error record and blocks
submission in both the add and the edit form — it does not pass through as a
mere warning. -/
theorem sellingPrice_warning_only_counterexample :
    addProductValidationErrors exampleAddFormSellingBelowCost = ["selling_price"]
    ∧ addProductHandleSubmit exampleAddFormSellingBelowCost = none
    ∧ editProductValidationErrors exampleEditFormSellingBelowCost
        = ["selling_price"]
    ∧ editProductHandleSubmit exampleEditFormSellingBelowCost = none := by
  refine ⟨by decide, by decide, by decide, by decide⟩

/-- Witness for C8 (amended) at the concrete example forms. -/
theorem sellingPrice_le_costPrice_blocks_submission_witness :
    ("selling_price" ∈ addProductValidationErrors exampleAddFormSellingBelowCost
      ∧ addProductHandleSubmit exampleAddFormSellingBelowCost = none)
    ∧ ("selling_price" ∈ editProductValidationErrors exampleEditFormSellingBelowCost
      ∧ editProductHandleSubmit exampleEditFormSellingBelowCost = none) :=
  ⟨sellingPrice_le_costPrice_blocks_submission.1 exampleAddFormSellingBelowCost
      (by decide),
   sellingPrice_le_costPrice_blocks_submission.2 exampleEditFormSellingBelowCost
      (by decide)⟩

/-! ## The edit path and SKU immutability

`EditProductModal` pre-populates its form from the product, renders the SKU
input `disabled` with no change handler, and submits the spread form state.
The backend `PUT /api/products/{id}` handler is absent from the frontend
sources and is modelled from the specification. -/

/-- JS `x || d` on a number already known to be a number: `0` is falsy. -/
def jsOrZ (x d : ℤ) : ℤ := if x = 0 then d else x

/-- JS `x || d` on a rational-valued number: `0` is falsy. -/
def jsOrQ (x d : ℚ) : ℚ := if x = 0 then d else x

/-- JS `x || d` on a string: `''` is falsy. -/
def jsOrS (x d : String) : String := if x = "" then d else x

/-- JS `x || d` where `x` may be `undefined`. -/
def jsOrOptZ (x : Option ℤ) (d : ℤ) : ℤ :=
  match x with
  | some v => jsOrZ v d
  | none => d

def jsOrOptQ (x : Option ℚ) (d : ℚ) : ℚ :=
  match x with
  | some v => jsOrQ v d
  | none => d

def jsOrOptS (x : Option String) (d : String) : String :=
  match x with
  | some v => jsOrS v d
  | none => d

/-- `product.expiry_date ? product.expiry_date.split('T')[0] : ''`. -/
def initExpiryDate (x : Option String) : String :=
  match x with
  | none => ""
  | some s => if s = "" then "" else (s.splitOn "T").headD ""

/-- The `useEffect` pre-population of the edit form from the product,
fallback for fallback (`|| ''`, `|| 0`, `|| 10`, `|| 1000`, `|| 7`,
`|| 'pieces'`, `|| false`). -/
def initEditForm (p : Product) : EditProductFormData :=
  { name := jsOrS p.name ""
    description := jsOrOptS p.description ""
    sku := jsOrS p.sku ""
    barcode := jsOrOptS p.barcode ""
    category := jsOrS p.category ""
    subcategory := jsOrOptS p.subcategory ""
    brand := jsOrOptS p.brand ""
    cost_price := jsOrQ p.cost_price 0
    selling_price := jsOrQ p.selling_price 0
    min_stock_threshold := jsOrZ p.min_stock_threshold 10
    max_stock_threshold := jsOrOptZ p.max_stock_threshold 1000
    aisle := jsOrOptS p.aisle ""
    shelf := jsOrOptS p.shelf ""
    bin_location := jsOrOptS p.bin_location ""
    warehouse_id := jsOrOptS p.warehouse_id ""
    unit_of_measure := jsOrS p.unit_of_measure "pieces"
    weight := jsOrOptQ p.weight 0
    dimensions := jsOrOptS p.dimensions ""
    is_perishable := (p.is_perishable || false)
    expiry_date := initExpiryDate p.expiry_date
    days_until_expiry_warning := jsOrZ p.days_until_expiry_warning 7
    supplier_id := jsOrOptS p.supplier_id ""
    supplier_sku := jsOrOptS p.supplier_sku "" }

/-- The edits the modal's UI can perform via `handleInputChange`: one
constructor per input that carries an `onChange` handler.  The SKU and the
current-stock inputs are rendered `disabled` with no handler, so no action
touches them. -/
inductive EditAction where
  | name (v : String)
  | barcode (v : String)
  | category (v : String)
  | brand (v : String)
  | unit_of_measure (v : String)
  | cost_price (v : ℚ)
  | selling_price (v : ℚ)
  | min_stock_threshold (v : ℤ)
  | max_stock_threshold (v : ℤ)
  | aisle (v : String)
  | shelf (v : String)
  | bin_location (v : String)
  | is_perishable (v : Bool)
  | expiry_date (v : String)
  | days_until_expiry_warning (v : ℤ)
  | description (v : String)

/-- `handleInputChange`: overwrite the named field. -/
def applyEditAction (f : EditProductFormData) : EditAction → EditProductFormData
  | .name v => { f with name := v }
  | .barcode v => { f with barcode := v }
  | .category v => { f with category := v }
  | .brand v => { f with brand := v }
  | .unit_of_measure v => { f with unit_of_measure := v }
  | .cost_price v => { f with cost_price := v }
  | .selling_price v => { f with selling_price := v }
  | .min_stock_threshold v => { f with min_stock_threshold := v }
  | .max_stock_threshold v => { f with max_stock_threshold := v }
  | .aisle v => { f with aisle := v }
  | .shelf v => { f with shelf := v }
  | .bin_location v => { f with bin_location := v }
  | .is_perishable v => { f with is_perishable := v }
  | .expiry_date v => { f with expiry_date := v }
  | .days_until_expiry_warning v => { f with days_until_expiry_warning := v }
  | .description v => { f with description := v }

/-- Modelled from the spec: the backend `PUT /api/products/{id}` handler is not
part of the frontend sources.  Spec §4.1: an update applies any field present
in the partial payload; "the API layer does not enforce" SKU immutability, so a
SKU present in the payload is applied like any other field. -/
def updateProduct (p : Product) (u : ProductUpdatePayload) : Product :=
  { p with sku := u.sku.getD p.sku
           name := u.name.getD p.name
           category := u.category.getD p.category
           cost_price := u.cost_price.getD p.cost_price
           selling_price := u.selling_price.getD p.selling_price }

lemma applyEditAction_sku (f : EditProductFormData) (a : EditAction) :
    (applyEditAction f a).sku = f.sku := by
  cases a <;> rfl

lemma foldl_applyEditAction_sku (acts : List EditAction) :
    ∀ f : EditProductFormData, (acts.foldl applyEditAction f).sku = f.sku := by
  induction acts with
  | nil => intro f; rfl
  | cons a rest ih =>
      intro f
      rw [List.foldl_cons, ih, applyEditAction_sku]

lemma jsOrS_empty (x : String) : jsOrS x "" = x := by
  by_cases h : x = "" <;> simp [jsOrS, h]

/-- C7 (amended): the edit path never submits a modified SKU — after any
sequence of edits the submitted payload still carries the product's original
SKU, so pushing it through the update leaves the stored SKU unchanged.  (The
update API itself does not enforce immutability; see the counterexample.) -/
theorem edit_path_preserves_sku :
    (∀ (p : Product) (acts : List EditAction),
        (editSubmitPayload (acts.foldl applyEditAction (initEditForm p))).sku
          = some p.sku)
    ∧ ∀ (p : Product) (acts : List EditAction),
        (updateProduct p
            (editSubmitPayload (acts.foldl applyEditAction (initEditForm p)))).sku
          = p.sku := by
  have hsku : ∀ (p : Product) (acts : List EditAction),
      (acts.foldl applyEditAction (initEditForm p)).sku = p.sku := by
    intro p acts
    rw [foldl_applyEditAction_sku]
    exact jsOrS_empty p.sku
  exact ⟨fun p acts => congrArg some (hsku p acts),
    fun p acts => by simp [updateProduct, editSubmitPayload, hsku p acts]⟩

/-- An update payload carrying a different SKU, as the untyped
`Partial<Product>` accepted by `ProductService.updateProduct` permits. -/
def exampleSkuChangePayload : ProductUpdatePayload :=
  { sku := some "MILK-999", name := none, category := none
    cost_price := none, selling_price := none }

/-- Counterexample to C7 as stated: an update carrying a different SKU is
neither rejected nor ignored — the stored SKU changes. -/
theorem updateProduct_sku_change_applied :
    (updateProduct mockMilk exampleSkuChangePayload).sku = "MILK-999"
    ∧ mockMilk.sku = "MILK-001"
    ∧ ¬ (updateProduct mockMilk exampleSkuChangePayload).sku = mockMilk.sku :=
  ⟨rfl, rfl, by decide⟩

/-! ## List-endpoint response shapes

Transcribed from the response types of the two list calls: the product list
resolves to the `ProductListResponse` object; the purchase-order list resolves
to `PurchaseOrder[]` — a bare JSON array, which carries no top-level object
fields. -/

/-- Top-level field names of the `ProductListResponse` interface of
`productService`. -/
def productListResponseFields : List String :=
  ["products", "total_count", "page", "per_page", "total_pages"]

/-- Top-level field names of the purchase-order list response:
`PurchaseOrderService.getPurchaseOrders` has return type
`Promise<PurchaseOrder[]>` and returns the decoded array unchanged, so the
response is a JSON array with no top-level object fields at all. -/
def purchaseOrderListResponseFields : List String := []

/-- The pagination metadata every list endpoint is claimed to return. -/
def paginationMetadataFields : List String :=
  ["page", "per_page", "total_count", "total_pages"]

/-- C9 (amended): the product list response carries all four pagination
metadata fields, while the purchase-order list response is a bare array with
no top-level fields, hence no pagination metadata. -/
theorem pagination_metadata_product_list_only :
    (∀ f ∈ paginationMetadataFields, f ∈ productListResponseFields)
    ∧ purchaseOrderListResponseFields = [] :=
  ⟨by decide, rfl⟩

/-- Counterexample to C9 as stated: the purchase-order list endpoint's
response does not include the pagination fields. -/
theorem purchaseOrderList_lacks_pagination :
    ¬ ∀ f ∈ paginationMetadataFields, f ∈ purchaseOrderListResponseFields := by
  decide

/-- Witness for C9 (amended): `page` is among the product list's fields. -/
theorem pagination_metadata_product_list_only_witness :
    "page" ∈ productListResponseFields :=
  pagination_metadata_product_list_only.1 "page" (by decide)

end Inventory
